import Mathlib

/-!
Verification of the maternal-health risk-prediction pipeline.

This file gives a shallow embedding, over `ℚ`, of the inference path of the
repository: input validation and feature engineering (`features.py`,
`pipeline.py`), the alert-generation policy (`pipeline.py::_generate_alert`),
the prediction orchestration (`pipeline.py::predict`), the SHAP explanation
utilities (`shap_utils.py`), the `/shap/global` endpoint clamp (`app.py`) and
the calibration-curve computation (`evaluation.py`).

Floating-point numbers of the source are modelled as rationals.  Pre-fitted
artifacts that are not part of the repository (the sklearn scaler, the
calibrated classifier, the SHAP library's attribution computation, numpy's
random sampling) are modelled as opaque-but-pure function parameters of the
corresponding structures; everything written in the repository itself is
embedded definitionally.  Division by zero follows Lean's `ℚ` convention
(`x / 0 = 0`); no claim below depends on a zero denominator.
-/

/-! ## Data frames

A row of a pandas `DataFrame` built from a dict is modelled as an association
list from column name to an optional value (`none` models a null/NaN entry);
the frame carries the column list (the union of the dict keys).
-/

def Row : Type := List (String × Option ℚ)

structure Frame where
  cols : List String
  rows : List Row

/-- Value of a row at a column; `none` when the key is absent or the value is
null (a dict row that lacks a column of the frame shows up as NaN). -/
def getCol (r : Row) (c : String) : Option ℚ :=
  (List.lookup c r).join

/-- Total version of `getCol`; only used on the paths where the validation of
`pipeline.py` has already guaranteed presence and non-nullness. -/
def getColD (r : Row) (c : String) : ℚ :=
  (getCol r c).getD 0

/-! ## `config.py` — `ModelConfig`

The three alert thresholds are modelled as `Option ℚ`: `some` is the value of
the dataclass attribute and `none` models a config object on which the
`hasattr` probes of `_generate_alert` fail.  `ModelConfig()` itself always has
all three attributes, with the defaults `0.7`, `0.4`, `0.9`
(`defaultModelConfig` below).  `__post_init__` fills `clinical_ranges` with
the default ranges when it was not provided.
-/

structure ModelConfig where
  high_risk_threshold : Option ℚ
  mid_risk_threshold : Option ℚ
  low_risk_confidence : Option ℚ
  clinical_ranges : List (String × ℚ × ℚ)

def defaultClinicalRanges : List (String × ℚ × ℚ) :=
  [("Age", 13, 60), ("SystolicBP", 70, 200), ("DiastolicBP", 40, 120),
   ("BS", 1, 30), ("BodyTemp", 95, 104), ("HeartRate", 40, 200)]

def defaultModelConfig : ModelConfig :=
  { high_risk_threshold := some (7/10)
    mid_risk_threshold := some (2/5)
    low_risk_confidence := some (9/10)
    clinical_ranges := defaultClinicalRanges }

/-! ## Errors and alert records -/

/-- The dictionary returned by `_generate_alert`. -/
structure AlertInfo where
  level : String
  message : String
  urgency : String
  risk_score : ℚ
  risk_category : String
deriving DecidableEq, Repr

/-- The `ValueError`s raised on the prediction path, carrying the same data as
the corresponding Python exception messages. -/
inductive PipeError where
  | missingColumns (cols : List String)
  | nullColumns (cols : List String)
  | probsNotCloseToOne (total : ℚ)
  | probCountMismatch (got expected : Nat)
deriving DecidableEq, Repr

/-- The degraded alert returned when an exception is raised inside the
`try` block of `_generate_alert`. -/
def errorAlert : AlertInfo :=
  { level := "ERROR"
    message := "Unable to determine risk level due to internal error."
    urgency := "UNKNOWN"
    risk_score := 0
    risk_category := "ERROR" }

/-! ## The pipeline object

`MaternalRiskPipeline` bundles the pre-fitted artifacts.  `scaler`,
`predictCls` and `predictProba` model `self.scaler.transform`,
`self.model.predict` and `self.model.predict_proba` row-wise; `shapExtract`
models the SHAP explainer together with the per-sample format extraction of
`predict` (lines 313-347 of `pipeline.py`): given the engineered matrix, a row
index and the predicted class index it yields the flattened 1-D
`sample_shap` vector, `none` when the explainer is absent or the computation
failed or the format was unusable.
-/

structure Pipeline where
  classes : List String
  config : ModelConfig
  scaler : List ℚ → List ℚ
  predictCls : List ℚ → Nat
  predictProba : List ℚ → List ℚ
  shapExtract : Option (List (List ℚ) → Nat → Nat → Option (List ℚ))

/-- Embeds `_setup_risk_indices`: `list(self.label_encoder.classes_).index('high risk')`. -/
def Pipeline.highRiskIdx (pl : Pipeline) : Nat := pl.classes.indexOf "high risk"

def Pipeline.midRiskIdx (pl : Pipeline) : Nat := pl.classes.indexOf "mid risk"

def Pipeline.lowRiskIdx (pl : Pipeline) : Nat := pl.classes.indexOf "low risk"

/-! ## `np.argmax` — first index attaining the maximum -/

def argmaxAux : List ℚ → Nat → Nat → ℚ → Nat
  | [], _, bi, _ => bi
  | x :: xs, i, bi, bv => if bv < x then argmaxAux xs (i + 1) i x else argmaxAux xs (i + 1) bi bv

def argmaxIdx : List ℚ → Nat
  | [] => 0
  | x :: xs => argmaxAux xs 1 0 x

theorem argmaxAux_lt (xs : List ℚ) : ∀ (i bi : Nat) (bv : ℚ), bi < i →
    argmaxAux xs i bi bv < i + xs.length := by
  induction xs with
  | nil => intro i bi bv h; simpa [argmaxAux] using h
  | cons x xs ih =>
    intro i bi bv h
    simp only [argmaxAux]
    by_cases hx : bv < x
    · simpa [hx, Nat.add_comm, Nat.add_left_comm] using
        ih (i + 1) i x (Nat.lt_succ_self i)
    · simpa [hx, Nat.add_comm, Nat.add_left_comm] using
        ih (i + 1) bi bv (Nat.lt_succ_of_lt h)

theorem argmaxIdx_lt (l : List ℚ) (h : l ≠ []) : argmaxIdx l < l.length := by
  cases l with
  | nil => exact absurd rfl h
  | cons x xs =>
    simpa [argmaxIdx, Nat.add_comm] using argmaxAux_lt xs 1 0 x Nat.one_pos

/-! ## `pipeline.py::_generate_alert` -/

def listSum (l : List ℚ) : ℚ := l.foldr (· + ·) 0

/-- Tolerance of `np.isclose(probabilities.sum(), 1, rtol=0.01)` with numpy's default
`atol = 1e-8`: `|s - 1| ≤ atol + rtol * |1|`. -/
def probSumTol : ℚ := 1/100000000 + 1/100

/-- The validation performed by `_generate_alert` before its `try` block (the
`isinstance(probabilities, np.ndarray)` check is a type-level fact in the
embedding). -/
def probsValid (pl : Pipeline) (probs : List ℚ) : Prop :=
  |listSum probs - 1| ≤ probSumTol ∧ probs.length = pl.classes.length

instance (pl : Pipeline) (probs : List ℚ) : Decidable (probsValid pl probs) :=
  inferInstanceAs (Decidable (_ ∧ _))

/-- The body of the `try` block of `_generate_alert`: any `.error` produced
here models an exception caught by the `except` clause. -/
def generateAlertInner (pl : Pipeline) (probs : List ℚ) : Except String AlertInfo :=
  let k := argmaxIdx probs
  match probs.get? k, pl.classes.get? k with
  | some m, some cat =>
    match pl.config.high_risk_threshold, pl.config.mid_risk_threshold,
          pl.config.low_risk_confidence with
    | some ht, some mt, some lc =>
      if k = pl.highRiskIdx ∧ ht ≤ m then
        .ok { level := "HIGH_ALERT", message := "Immediate clinical evaluation recommended.",
              urgency := "CRITICAL", risk_score := m, risk_category := cat }
      else if k = pl.midRiskIdx ∧ mt ≤ m then
        .ok { level := "MEDIUM_ALERT", message := "Clinical follow-up recommended.",
              urgency := "MODERATE", risk_score := m, risk_category := cat }
      else if k = pl.lowRiskIdx ∧ lc ≤ m then
        .ok { level := "LOW_ALERT",
              message := "Continue regular monitoring. Low risk confirmed.",
              urgency := "LOW", risk_score := m, risk_category := cat }
      else
        .ok { level := "NO_SPECIFIC_ALERT",
              message := "Risk level determined, but no specific alert threshold met.",
              urgency := "LOW", risk_score := m, risk_category := cat }
    | _, _, _ => .error "Missing threshold in config"
  | _, _ => .error "index out of range"

/-- Embeds `_generate_alert`: the two `ValueError`s of the validation phase are
raised to the caller; an exception inside the `try` block degrades to
`errorAlert`. -/
def generateAlert (pl : Pipeline) (probs : List ℚ) : Except PipeError AlertInfo :=
  if |listSum probs - 1| ≤ probSumTol then
    if probs.length = pl.classes.length then
      match generateAlertInner pl probs with
      | .ok a => .ok a
      | .error _ => .ok errorAlert
    else .error (.probCountMismatch probs.length pl.classes.length)
  else .error (.probsNotCloseToOne (listSum probs))

/-! ## `features.py` — `FeatureEngineer` -/

def requiredCols : List String :=
  ["Age", "SystolicBP", "DiastolicBP", "BS", "BodyTemp", "HeartRate"]

/-- The columns `transform` assigns, in assignment order. -/
def newFeatureNames : List String :=
  ["Age_SystolicBP", "PulsePressure", "MAP", "HR_Temp_Ratio", "Age_BS",
   "BP_Product", "Age_squared", "Temp_HR_interaction", "Sys_Dia_Ratio",
   "ShockIndex", "Temp_Deviation", "BS_Deviation", "Age_Category",
   "Hypertension_Flag"]

/-- Value of column `c` of the engineered frame at row `r`: an assigned column
holds its computed value (pandas overwrites in place an input column of the
same name); any other column keeps the input value. -/
def engFeatureValue (r : Row) (c : String) : ℚ :=
  let age := getColD r "Age"
  let sys := getColD r "SystolicBP"
  let dia := getColD r "DiastolicBP"
  let bs := getColD r "BS"
  let temp := getColD r "BodyTemp"
  let hr := getColD r "HeartRate"
  if c = "Age_SystolicBP" then age * sys
  else if c = "PulsePressure" then sys - dia
  else if c = "MAP" then dia + (sys - dia) / 3
  else if c = "HR_Temp_Ratio" then hr / temp
  else if c = "Age_BS" then age * bs
  else if c = "BP_Product" then sys * dia
  else if c = "Age_squared" then age ^ 2
  else if c = "Temp_HR_interaction" then temp * hr
  else if c = "Sys_Dia_Ratio" then sys / dia
  else if c = "ShockIndex" then hr / sys
  else if c = "Temp_Deviation" then temp - 37
  else if c = "BS_Deviation" then bs - 7
  else if c = "Age_Category" then (if age ≤ 20 then 0 else if age ≤ 35 then 1 else 2)
  else if c = "Hypertension_Flag" then (if 140 ≤ sys ∨ 90 ≤ dia then 1 else 0)
  else getColD r c

/-- Column list of `FeatureEngineer.transform`'s output: the input columns (a
column that is reassigned keeps its position) followed by the newly created
ones in assignment order. -/
def engineeredCols (cols : List String) : List String :=
  cols ++ newFeatureNames.filter (fun c => ¬ cols.contains c)

/-- One row of `FeatureEngineer.transform`'s output, as the value vector in
the order of `engineeredCols`. -/
def engineerRow (cols : List String) (r : Row) : List ℚ :=
  (engineeredCols cols).map (engFeatureValue r)

def engineerFrame (X : Frame) : List (List ℚ) :=
  X.rows.map (engineerRow X.cols)

/-! ## `pipeline.py::_validate_input` -/

/-- Embeds `[col for col in required_cols if col not in X.columns]`. -/
def missingColsOf (X : Frame) : List String :=
  requiredCols.filter (fun c => ¬ X.cols.contains c)

/-- The required columns in which some row holds a null, in required-column
order (`X[required_cols].isnull().any()` filtered to the true entries). -/
def nullColsOf (X : Frame) : List String :=
  requiredCols.filter (fun c => X.rows.any (fun r => (getCol r c).isNone))

/-- The columns for which a clinical-range warning is logged. -/
def rangeWarnings (cfg : ModelConfig) (X : Frame) : List String :=
  (cfg.clinical_ranges.filter (fun p =>
    X.cols.contains p.1 &&
      X.rows.any (fun r => decide (getColD r p.1 < p.2.1) || decide (p.2.2 < getColD r p.1)))).map
    (fun p => p.1)

/-- Embeds `_validate_input`: raises on missing columns, then on nulls; out-of-range
values only produce warnings (returned here as the list of warned columns). -/
def validateInput (cfg : ModelConfig) (X : Frame) : Except PipeError (List String) :=
  if missingColsOf X ≠ [] then .error (.missingColumns (missingColsOf X))
  else if nullColsOf X ≠ [] then .error (.nullColumns (nullColsOf X))
  else .ok (rangeWarnings cfg X)

/-! ## Descending stable sort by a rational key

Models Python's stable `list.sort(key=..., reverse=True)` via Mathlib's
(stable) insertion sort with the relation "key not smaller". -/

def keyGE {α : Type} (key : α → ℚ) : α → α → Prop := fun a b => key b ≤ key a

instance {α : Type} (key : α → ℚ) : DecidableRel (keyGE key) :=
  fun a b => inferInstanceAs (Decidable (key b ≤ key a))

instance {α : Type} (key : α → ℚ) : IsTotal α (keyGE key) :=
  ⟨fun a b => le_total (key b) (key a)⟩

instance {α : Type} (key : α → ℚ) : IsTrans α (keyGE key) :=
  ⟨fun _ _ _ h1 h2 => le_trans h2 h1⟩

def sortDescBy {α : Type} (key : α → ℚ) (l : List α) : List α :=
  List.insertionSort (keyGE key) l

theorem sortDescBy_pairwise {α : Type} (key : α → ℚ) (l : List α) :
    (sortDescBy key l).Pairwise (keyGE key) :=
  List.sorted_insertionSort (keyGE key) l

theorem sortDescBy_perm {α : Type} (key : α → ℚ) (l : List α) :
    List.Perm (sortDescBy key l) l :=
  List.perm_insertionSort (keyGE key) l

/-! ## The per-prediction explanation of `predict`

`np.argsort(np.abs(sample_shap))[::-1][:3]` followed by the guarded entry
construction of `pipeline.py` lines 356-367. -/

/-- The entries of the `explanation` list of a prediction result carry only a
feature name and a signed SHAP value. -/
structure ExplEntryTop where
  feature : String
  shap_value : ℚ
deriving DecidableEq, Repr

/-- Indices of `v` sorted by absolute value, largest first, truncated to 3. -/
def top3Idx (v : List ℚ) : List Nat :=
  (sortDescBy (fun j => |v.getD j 0|) (List.range v.length)).take 3

/-- The `explanation` list built by `predict` from the extracted 1-D SHAP
vector `v`; built only when the feature-name list is non-empty and
`len(sample_shap) >= len(feature_names)`, and an index out of the name range
is skipped. -/
def buildExplanation (names : List String) (v : List ℚ) : List ExplEntryTop :=
  if names.length ≠ 0 ∧ names.length ≤ v.length then
    (top3Idx v).filterMap (fun j =>
      if j < names.length then some ⟨names.getD j "", v.getD j 0⟩ else none)
  else []

/-! ## `pipeline.py::predict` -/

structure PredResult where
  predicted_risk_level : String
  probability : List (String × ℚ)
  alert : AlertInfo
  confidence_score : ℚ
  explanation : List ExplEntryTop
deriving DecidableEq, Repr

def listMax : List ℚ → ℚ
  | [] => 0
  | x :: xs => xs.foldl max x

/-- The per-row probability vector `y_proba[i]` as computed by `predict`:
feature engineering, then the fitted scaler, then `predict_proba`. -/
def Pipeline.probaRow (pl : Pipeline) (cols : List String) (r : Row) : List ℚ :=
  pl.predictProba (pl.scaler (engineerRow cols r))

def Pipeline.probaMatrix (pl : Pipeline) (X : Frame) : List (List ℚ) :=
  X.rows.map (pl.probaRow X.cols)

/-- The extracted 1-D SHAP vector for row `i` (`class_idx = argmax(y_proba[i])`),
`none` when the explainer is absent, the computation failed, or the value
format was unusable. -/
def rowShap (pl : Pipeline) (Xe : List (List ℚ)) (probas : List (List ℚ)) (i : Nat) :
    Option (List ℚ) :=
  match pl.shapExtract with
  | none => none
  | some f => f Xe i (argmaxIdx (probas.getD i []))

/-- The `for`-loop of `predict`: the first exception aborts the whole batch. -/
def mapExcept {α β ε : Type} (f : α → Except ε β) : List α → Except ε (List β)
  | [] => .ok []
  | x :: xs => do
    let y ← f x
    let ys ← mapExcept f xs
    pure (y :: ys)

/-- The result dictionary assembled for row `i` (the `timestamp` and
`model_version` metadata fields are omitted from the embedding). -/
def resultForRow (pl : Pipeline) (X : Frame) (i : Nat) : Except PipeError PredResult := do
  let probs := (pl.probaMatrix X).getD i []
  let a ← generateAlert pl probs
  pure { predicted_risk_level :=
           pl.classes.getD (pl.predictCls (pl.scaler (engineerRow X.cols (X.rows.getD i []))) ) ""
         probability := (List.range pl.classes.length).map
           (fun j => (pl.classes.getD j "", probs.getD j 0))
         alert := a
         confidence_score := listMax probs
         explanation :=
           match rowShap pl (engineerFrame X) (pl.probaMatrix X) i with
           | none => []
           | some sv => buildExplanation (engineeredCols X.cols) sv }

/-- Embeds `MaternalRiskPipeline.predict` on an input frame: validate, then engineer,
scale and classify every row, then build the per-row results; validation
errors and alert-generation errors are raised to the caller. -/
def predict (pl : Pipeline) (X : Frame) : Except PipeError (List PredResult) := do
  let _ ← validateInput pl.config X
  mapExcept (resultForRow pl X) (List.range X.rows.length)

/-! ## `shap_utils.py` — `SHAPExplainer` -/

def featureDescription (c : String) : String :=
  if c = "Age" then "Patient age in years"
  else if c = "SystolicBP" then "Systolic blood pressure (mmHg)"
  else if c = "DiastolicBP" then "Diastolic blood pressure (mmHg)"
  else if c = "BS" then "Blood sugar level (mmol/L)"
  else if c = "BodyTemp" then "Body temperature (F)"
  else if c = "HeartRate" then "Heart rate (beats per minute)"
  else ""

/-- Embeds `SHAPExplainer`: `shapFn` models `self.explainer.shap_values` (including
the list-unwrapping of the TreeExplainer branch) as a pure oracle from a
data-frame, given as a list of dict rows, to the 2-D value matrix; `none` on
the outside models `self.explainer is None`, `none` on the inside an exception
during the computation.  `sampleRow` models the seeded `np.random.uniform`
row generation of `_get_cached_shap_values`. -/
structure SHAPExplainerM where
  shapFn : Option (List (List (String × ℚ)) → Option (List (List ℚ)))
  sampleRow : Nat → List (String × ℚ)

/-- An entry of `get_individual_explanation`'s result. -/
structure ExplanationEntry where
  feature : String
  feature_description : String
  value : ℚ
  shap_value : ℚ
  abs_shap_value : ℚ
  impact : String
  importance_rank : Nat
deriving DecidableEq, Repr

def dummyEntry : ExplanationEntry :=
  { feature := "", feature_description := "", value := 0, shap_value := 0,
    abs_shap_value := 0, impact := "", importance_rank := 0 }

/-- The entry-construction loop of `get_individual_explanation`: features are
walked in canonical order, an absent key is skipped, and an index beyond the
SHAP vector is an `IndexError` (`none`), which the surrounding `except`
converts into an empty result. -/
def buildEntries (features : List (String × ℚ)) (sv : List ℚ) :
    List (Nat × String) → Option (List ExplanationEntry)
  | [] => some []
  | (i, name) :: rest =>
    match List.lookup name features with
    | none => buildEntries features sv rest
    | some v =>
      match sv.get? i with
      | none => none
      | some s =>
        (buildEntries features sv rest).map
          (fun es =>
            { feature := name, feature_description := featureDescription name,
              value := v, shap_value := s, abs_shap_value := |s|,
              impact := if 0 < s then "positive" else "negative",
              importance_rank := 0 } :: es)

/-- Embeds `for i, exp in enumerate(explanations): exp["importance_rank"] = i + 1`,
generalized over the first rank. -/
def assignRanksFrom (n : Nat) : List ExplanationEntry → List ExplanationEntry
  | [] => []
  | x :: xs => { x with importance_rank := n } :: assignRanksFrom (n + 1) xs

def assignRanks (l : List ExplanationEntry) : List ExplanationEntry :=
  assignRanksFrom 1 l

/-- Embeds `SHAPExplainer.get_individual_explanation`: empty when the explainer is
absent or any exception occurs; otherwise the entries for the present base
features, sorted by absolute SHAP value descending, with dense 1-based
ranks. -/
def getIndividualExplanation (e : SHAPExplainerM) (features : List (String × ℚ)) :
    List ExplanationEntry :=
  match e.shapFn with
  | none => []
  | some f =>
    match f [features] with
    | none => []
    | some m =>
      match m.get? 0 with
      | none => []
      | some sv =>
        match buildEntries features sv requiredCols.enum with
        | none => []
        | some raw => assignRanks (sortDescBy (fun x => x.abs_shap_value) raw)

/-! ### Global feature importance and the `/shap/global` endpoint -/

structure GlobalFeatureEntry where
  feature : String
  description : String
  mean_abs_shap : ℚ
  rank : Nat
deriving DecidableEq, Repr

def assignRanksG (n : Nat) : List GlobalFeatureEntry → List GlobalFeatureEntry
  | [] => []
  | x :: xs => { x with rank := n } :: assignRanksG (n + 1) xs

structure GlobalImportanceResult where
  feature_importance : List GlobalFeatureEntry
  sample_size : Nat
  total_features : Nat
deriving DecidableEq, Repr

/-- The synthetic sample frame of `_get_cached_shap_values` (seeded numpy
sampling, one generated row per index). -/
def sampleData (e : SHAPExplainerM) (sample_size : Nat) : List (List (String × ℚ)) :=
  (List.range sample_size).map e.sampleRow

/-- Embeds `_get_cached_shap_values` (the `lru_cache` only memoizes this pure
computation). -/
def getCachedShapValues (e : SHAPExplainerM) (sample_size : Nat) : Option (List (List ℚ)) :=
  match e.shapFn with
  | none => none
  | some f => f (sampleData e sample_size)

/-- Embeds `np.mean(np.abs(shap_values), axis=0)[i]`. -/
def meanAbsAt (m : List (List ℚ)) (i : Nat) : ℚ :=
  if m.length = 0 then 0
  else listSum (m.map (fun r => |r.getD i 0|)) / m.length

/-- Embeds `SHAPExplainer.get_global_feature_importance`. -/
def getGlobalFeatureImportance (e : SHAPExplainerM) (sample_size : Nat) :
    Except String GlobalImportanceResult :=
  match e.shapFn with
  | none => .error "SHAP explainer not available"
  | some _ =>
    match getCachedShapValues e sample_size with
    | none => .error "Could not compute SHAP values"
    | some m =>
      let raw := (List.range requiredCols.length).map (fun i =>
        { feature := requiredCols.getD i "",
          description := featureDescription (requiredCols.getD i ""),
          mean_abs_shap := meanAbsAt m i, rank := 0 })
      .ok { feature_importance := assignRanksG 1 (sortDescBy (fun x => x.mean_abs_shap) raw),
            sample_size := sample_size,
            total_features := requiredCols.length }

/-- The `/shap/global` endpoint of `app.py` on a cache miss: the requested
sample size is clamped to at most 100 before the engine is called (the Redis
cache layer is an external collaborator and is not modelled). -/
def shapGlobalEndpoint (e : SHAPExplainerM) (sample_size : Nat) :
    Except String GlobalImportanceResult :=
  getGlobalFeatureImportance e (if 100 < sample_size then 100 else sample_size)

/-! ### `get_explanation_summary` -/

structure ExplanationSummary where
  top_contributing_features : List ExplanationEntry
  positive_contributors : List ExplanationEntry
  negative_contributors : List ExplanationEntry
  total_positive_impact : ℚ
  total_negative_impact : ℚ
  most_important_feature : Option ExplanationEntry
  explanation_quality : String
deriving DecidableEq, Repr

/-- Embeds `SHAPExplainer.get_explanation_summary`. -/
def getExplanationSummary (e : SHAPExplainerM) (features : List (String × ℚ)) :
    Except String ExplanationSummary :=
  let ie := getIndividualExplanation e features
  if ie.isEmpty then .error "Could not generate explanation"
  else
    .ok { top_contributing_features := ie.take 3
          positive_contributors := ie.filter (fun x => x.impact == "positive")
          negative_contributors := ie.filter (fun x => x.impact == "negative")
          total_positive_impact :=
            listSum ((ie.filter (fun x => x.impact == "positive")).map (fun x => x.shap_value))
          total_negative_impact :=
            listSum ((ie.filter (fun x => x.impact == "negative")).map (fun x => x.shap_value))
          most_important_feature := ie.head?
          explanation_quality := if 4 ≤ ie.length then "high" else "medium" }

/-! ## `evaluation.py::calculate_calibration_curve` -/

structure CalibrationCurve where
  prob_true : List ℚ
  prob_pred : List ℚ
deriving DecidableEq, Repr

def emptyCurve : CalibrationCurve := { prob_true := [], prob_pred := [] }

/-- Embeds `y_pred_proba[:, j]`: numpy raises an `IndexError` when the column index
is out of range. -/
def extractCol (m : List (List ℚ)) (j : Nat) : Option (List ℚ) :=
  if m.all (fun r => decide (j < r.length)) then some (m.map (fun r => r.getD j 0)) else none

/-- Python's `list.index`, as used by `calculate_calibration_curve`
(`none` models the `ValueError` raised when the element is absent, which the
`except` clause turns into the empty curve). -/
def pyIndex (a : String) : List String → Option Nat
  | [] => none
  | x :: xs => if x = a then some 0 else (pyIndex a xs).map (fun n => n + 1)

/-- Embeds `calculate_calibration_curve`; `calFn` models
`sklearn.calibration.calibration_curve` (with `.error` for an exception it
raises).  Every exception path of the source returns the empty curve, so the
embedding is total. -/
def calculateCalibrationCurve (calFn : List Nat → List ℚ → Except String CalibrationCurve)
    (yTrue : List Nat) (yProba : List (List ℚ)) (classNames : List String) :
    CalibrationCurve :=
  match pyIndex "high risk" classNames with
  | none => emptyCurve
  | some hidx =>
    match extractCol yProba hidx with
    | none => emptyCurve
    | some col =>
      let yBin := yTrue.map (fun t => if t = hidx then 1 else 0)
      if 0 < yBin.foldr (· + ·) 0 then
        match calFn yBin col with
        | .ok c => c
        | .error _ => emptyCurve
      else emptyCurve

/-! ## Helper objects for concrete instantiations -/

def demoClasses : List String := ["high risk", "low risk", "mid risk"]

def demoPipeline : Pipeline :=
  { classes := demoClasses
    config := defaultModelConfig
    scaler := fun v => v
    predictCls := fun _ => 0
    predictProba := fun _ => [4/5, 1/10, 1/10]
    shapExtract := none }

/-! ## Claim C1 — the alert decision ladder -/

/-- The property claimed of an accepted probability vector: with
`k = argmax(p)` and `m = p[k]`, the four alert levels are characterized by
the ordered threshold ladder, and the score/category fields echo `m` and the
class name at `k`. -/
def alertPolicySpec (pl : Pipeline) (probs : List ℚ) (a : AlertInfo) : Prop :=
  let k := argmaxIdx probs
  let m := probs.getD k 0
  ((a.level = "HIGH_ALERT" ∧ a.urgency = "CRITICAL") ↔
    (k = pl.highRiskIdx ∧ 7/10 ≤ m)) ∧
  ((a.level = "MEDIUM_ALERT" ∧ a.urgency = "MODERATE") ↔
    (¬(k = pl.highRiskIdx ∧ 7/10 ≤ m) ∧ (k = pl.midRiskIdx ∧ 2/5 ≤ m))) ∧
  ((a.level = "LOW_ALERT" ∧ a.urgency = "LOW") ↔
    (¬(k = pl.highRiskIdx ∧ 7/10 ≤ m) ∧ ¬(k = pl.midRiskIdx ∧ 2/5 ≤ m) ∧
      (k = pl.lowRiskIdx ∧ 9/10 ≤ m))) ∧
  ((a.level = "NO_SPECIFIC_ALERT" ∧ a.urgency = "LOW") ↔
    (¬(k = pl.highRiskIdx ∧ 7/10 ≤ m) ∧ ¬(k = pl.midRiskIdx ∧ 2/5 ≤ m) ∧
      ¬(k = pl.lowRiskIdx ∧ 9/10 ≤ m))) ∧
  a.risk_score = m ∧ a.risk_category = pl.classes.getD k ""

/-- C1: for every probability vector accepted by `_generate_alert` under the
default thresholds (0.7 / 0.4 / 0.9), the returned alert is `HIGH_ALERT` with
urgency `CRITICAL` iff the argmax is the high-risk index with probability at
least 0.7; otherwise `MEDIUM_ALERT`/`MODERATE` iff the argmax is the mid-risk
index with probability at least 0.4; otherwise `LOW_ALERT`/`LOW` iff the
argmax is the low-risk index with probability at least 0.9; otherwise
`NO_SPECIFIC_ALERT` with urgency `LOW`; and in every case the risk score is
the argmax probability and the risk category the class name at the argmax. -/
theorem generate_alert_policy (pl : Pipeline) (probs : List ℚ)
    (hh : pl.config.high_risk_threshold = some (7/10))
    (hm : pl.config.mid_risk_threshold = some (2/5))
    (hl : pl.config.low_risk_confidence = some (9/10))
    (hsum : |listSum probs - 1| ≤ probSumTol)
    (hlen : probs.length = pl.classes.length) :
    ∃ a, generateAlert pl probs = .ok a ∧ alertPolicySpec pl probs a := by
  have hne : probs ≠ [] := by
    intro h
    rw [h] at hsum
    norm_num [listSum, probSumTol] at hsum
  have hk : argmaxIdx probs < probs.length := argmaxIdx_lt probs hne
  have hkc : argmaxIdx probs < pl.classes.length := hlen ▸ hk
  have hgp : probs.get? (argmaxIdx probs) = some (probs.getD (argmaxIdx probs) 0) := by
    rw [List.get?_eq_getElem?, List.getElem?_eq_getElem hk, List.getD_eq_getElem _ _ hk]
  have hgc : pl.classes.get? (argmaxIdx probs) = some (pl.classes.getD (argmaxIdx probs) "") := by
    rw [List.get?_eq_getElem?, List.getElem?_eq_getElem hkc, List.getD_eq_getElem _ _ hkc]
  unfold generateAlert
  rw [if_pos hsum, if_pos hlen]
  unfold generateAlertInner
  simp only [hgp, hgc, hh, hm, hl]
  split_ifs with h1 h2 h3
  · exact ⟨_, rfl,
      ⟨iff_of_true ⟨rfl, rfl⟩ h1,
        iff_of_false (fun h => by simp at h) (fun h => h.1 h1),
        iff_of_false (fun h => by simp at h) (fun h => h.1 h1),
        iff_of_false (fun h => by simp at h) (fun h => h.1 h1), rfl, rfl⟩⟩
  · exact ⟨_, rfl,
      ⟨iff_of_false (fun h => by simp at h) h1,
        iff_of_true ⟨rfl, rfl⟩ ⟨h1, h2⟩,
        iff_of_false (fun h => by simp at h) (fun h => h.2.1 h2),
        iff_of_false (fun h => by simp at h) (fun h => h.2.1 h2), rfl, rfl⟩⟩
  · exact ⟨_, rfl,
      ⟨iff_of_false (fun h => by simp at h) h1,
        iff_of_false (fun h => by simp at h) (fun h => h2 h.2),
        iff_of_true ⟨rfl, rfl⟩ ⟨h1, h2, h3⟩,
        iff_of_false (fun h => by simp at h) (fun h => h.2.2 h3), rfl, rfl⟩⟩
  · exact ⟨_, rfl,
      ⟨iff_of_false (fun h => by simp at h) h1,
        iff_of_false (fun h => by simp at h) (fun h => h2 h.2),
        iff_of_false (fun h => by simp at h) (fun h => h3 h.2.2),
        iff_of_true ⟨rfl, rfl⟩ ⟨h1, h2, h3⟩, rfl, rfl⟩⟩

/-- C1 witness: the default pipeline on the vector `[0.8, 0.1, 0.1]`. -/
theorem generate_alert_policy_witness :
    demoPipeline.config.high_risk_threshold = some (7/10) ∧
    demoPipeline.config.mid_risk_threshold = some (2/5) ∧
    demoPipeline.config.low_risk_confidence = some (9/10) ∧
    |listSum [4/5, 1/10, 1/10] - 1| ≤ probSumTol ∧
    ([(4:ℚ)/5, 1/10, 1/10].length = demoPipeline.classes.length) ∧
    ∃ a, generateAlert demoPipeline [4/5, 1/10, 1/10] = .ok a ∧
      alertPolicySpec demoPipeline [4/5, 1/10, 1/10] a :=
  ⟨rfl, rfl, rfl, by norm_num [listSum, probSumTol], rfl,
    generate_alert_policy demoPipeline [4/5, 1/10, 1/10] rfl rfl rfl
      (by norm_num [listSum, probSumTol]) rfl⟩

/-! ## Shared facts about `generateAlert` -/

/-- Once the validation phase passes, `_generate_alert` always returns some
alert record (the inner `try` absorbs every exception). -/
theorem generateAlert_ok_of_valid (pl : Pipeline) (probs : List ℚ)
    (hsum : |listSum probs - 1| ≤ probSumTol)
    (hlen : probs.length = pl.classes.length) :
    ∃ a, generateAlert pl probs = .ok a := by
  unfold generateAlert
  rw [if_pos hsum, if_pos hlen]
  cases generateAlertInner pl probs with
  | error e => exact ⟨errorAlert, rfl⟩
  | ok b => exact ⟨b, rfl⟩

/-! ## Claim C2 — malformed probability vectors abort prediction -/

theorem generateAlert_ok_probsValid (pl : Pipeline) (probs : List ℚ) (a : AlertInfo)
    (h : generateAlert pl probs = .ok a) : probsValid pl probs := by
  unfold generateAlert at h
  split_ifs at h with h1 h2
  exact ⟨h1, h2⟩

theorem mapExcept_error_of_mem {α β ε : Type} (f : α → Except ε β) (l : List α) (a : α)
    (ha : a ∈ l) (e : ε) (hf : f a = .error e) : ∃ e2, mapExcept f l = .error e2 := by
  induction l with
  | nil => cases ha
  | cons x xs ih =>
    cases hfx : f x with
    | error ex => exact ⟨ex, by simp only [mapExcept, hfx]; rfl⟩
    | ok y =>
      rcases List.mem_cons.mp ha with rfl | hmem
      · rw [hfx] at hf; cases hf
      · rcases ih hmem with ⟨e2, h2⟩
        exact ⟨e2, by simp only [mapExcept, hfx, h2]; rfl⟩

theorem resultForRow_error_of_alert_error (pl : Pipeline) (X : Frame) (i : Nat) (e : PipeError)
    (ha : generateAlert pl ((pl.probaMatrix X).getD i []) = .error e) :
    resultForRow pl X i = .error e := by
  simp only [resultForRow]
  rw [ha]
  rfl

theorem generateAlert_error_of_invalid (pl : Pipeline) (probs : List ℚ)
    (hbad : ¬ probsValid pl probs) : ∃ e, generateAlert pl probs = .error e := by
  unfold generateAlert
  by_cases h1 : |listSum probs - 1| ≤ probSumTol
  · by_cases h2 : probs.length = pl.classes.length
    · exact absurd ⟨h1, h2⟩ hbad
    · exact ⟨_, by rw [if_pos h1, if_neg h2]⟩
  · exact ⟨_, by rw [if_neg h1]⟩

/-- C2: if for some row the probability vector produced by the classifier
fails the validation of `_generate_alert` (sum not within 1% of 1, or length
different from the label encoder's class count), then `predict` raises: the
whole call returns an error and no alert value is produced.  (Quantifying over
every pipeline shows the failure is independent of the other artifacts.) -/
theorem predict_fails_on_malformed_probs (pl : Pipeline) (X : Frame) (i : Nat)
    (hi : i < X.rows.length)
    (hbad : ¬ probsValid pl (pl.probaRow X.cols (X.rows.getD i []))) :
    ∃ e, predict pl X = .error e := by
  have hrow : (pl.probaMatrix X).getD i [] = pl.probaRow X.cols (X.rows.getD i []) := by
    unfold Pipeline.probaMatrix
    rw [List.getD_eq_getElem _ _ (by simpa using hi), List.getElem_map,
      List.getD_eq_getElem _ _ hi]
  cases hv : validateInput pl.config X with
  | error e => exact ⟨e, by unfold predict; rw [hv]; rfl⟩
  | ok w =>
    rcases generateAlert_error_of_invalid pl _ (hrow ▸ hbad) with ⟨e, he⟩
    have hres : resultForRow pl X i = .error e :=
      resultForRow_error_of_alert_error pl X i e he
    rcases mapExcept_error_of_mem (resultForRow pl X) (List.range X.rows.length) i
      (List.mem_range.mpr hi) e hres with ⟨e2, h2⟩
    exact ⟨e2, by unfold predict; rw [hv]; exact h2⟩

def demoRow : Row :=
  [("Age", some 25), ("SystolicBP", some 120), ("DiastolicBP", some 80),
   ("BS", some 8), ("BodyTemp", some 98), ("HeartRate", some 70)]

def demoFrame : Frame := { cols := requiredCols, rows := [demoRow] }

/-- A pipeline whose classifier emits probabilities summing to 7/8. -/
def badProbaPipeline : Pipeline :=
  { demoPipeline with predictProba := fun _ => [1/2, 1/4, 1/8] }

/-- C2 witness: on a well-formed input row, the malformed vector
`[0.5, 0.25, 0.125]` makes `predict` fail. -/
theorem predict_fails_on_malformed_probs_witness :
    0 < demoFrame.rows.length ∧
    ¬ probsValid badProbaPipeline
        (badProbaPipeline.probaRow demoFrame.cols (demoFrame.rows.getD 0 [])) ∧
    ∃ e, predict badProbaPipeline demoFrame = .error e :=
  ⟨by decide,
   by
     intro hcontra
     have := hcontra.1
     norm_num [Pipeline.probaRow, badProbaPipeline, demoPipeline, listSum, probSumTol,
       abs_le] at this,
   predict_fails_on_malformed_probs badProbaPipeline demoFrame 0 (by decide)
     (by
       intro hcontra
       have := hcontra.1
       norm_num [Pipeline.probaRow, badProbaPipeline, demoPipeline, listSum, probSumTol,
         abs_le] at this)⟩

/-! ## Claim C3 — exception behaviour of `_generate_alert` -/

/-- C3 counterexample: a malformed probability vector (entries summing to 0.5)
makes `_generate_alert` raise a `ValueError` to its caller instead of
returning the `ERROR` alert record, refuting the claim that classification
never raises. -/
theorem generate_alert_raises_on_malformed :
    generateAlert demoPipeline [1/2] = .error (.probsNotCloseToOne (1/2)) ∧
    ∀ a, generateAlert demoPipeline [1/2] ≠ .ok a := by
  have h : generateAlert demoPipeline [1/2] = .error (.probsNotCloseToOne (1/2)) := by
    unfold generateAlert
    rw [if_neg (by norm_num [listSum, probSumTol, abs_le])]
    norm_num [listSum]
  exact ⟨h, fun a hc => by rw [h] at hc; cases hc⟩

/-- C3 amended: once the probability vector has passed the validation phase,
`_generate_alert` never raises — an exception inside the classification block
is absorbed into the `ERROR`/`UNKNOWN`/`0.0` alert record, and otherwise the
computed alert is returned unchanged.  Validation failures, by contrast,
propagate (see the counterexample). -/
theorem generate_alert_absorbs_inner_errors (pl : Pipeline) (probs : List ℚ)
    (hsum : |listSum probs - 1| ≤ probSumTol)
    (hlen : probs.length = pl.classes.length) :
    ∃ a, generateAlert pl probs = .ok a ∧
      (∀ e, generateAlertInner pl probs = .error e → a = errorAlert) ∧
      (∀ b, generateAlertInner pl probs = .ok b → a = b) := by
  unfold generateAlert
  rw [if_pos hsum, if_pos hlen]
  cases hi : generateAlertInner pl probs with
  | error e =>
    exact ⟨errorAlert, rfl, fun _ _ => rfl, fun b hb => Except.noConfusion hb⟩
  | ok b =>
    refine ⟨b, rfl, fun e he => Except.noConfusion he, fun c hc => ?_⟩
    injection hc

/-- A pipeline whose config object lacks all three threshold attributes, so
that the `hasattr` probe inside the `try` block raises. -/
def noThresholdPipeline : Pipeline :=
  { demoPipeline with
    config := { high_risk_threshold := none, mid_risk_threshold := none,
                low_risk_confidence := none, clinical_ranges := defaultClinicalRanges } }

/-- C3 amended witness: with the thresholds missing the inner block raises and
the returned alert is the degraded `ERROR` record. -/
theorem generate_alert_absorbs_inner_errors_witness :
    |listSum [1/2, 1/4, 1/4] - 1| ≤ probSumTol ∧
    ([(1:ℚ)/2, 1/4, 1/4].length = noThresholdPipeline.classes.length) ∧
    generateAlertInner noThresholdPipeline [1/2, 1/4, 1/4] =
      .error "Missing threshold in config" ∧
    (∃ a, generateAlert noThresholdPipeline [1/2, 1/4, 1/4] = .ok a ∧
      (∀ e, generateAlertInner noThresholdPipeline [1/2, 1/4, 1/4] = .error e →
        a = errorAlert) ∧
      (∀ b, generateAlertInner noThresholdPipeline [1/2, 1/4, 1/4] = .ok b → a = b)) :=
  ⟨by norm_num [listSum, probSumTol], rfl,
   by norm_num [generateAlertInner, argmaxIdx, argmaxAux, noThresholdPipeline, demoPipeline,
     demoClasses],
   generate_alert_absorbs_inner_errors noThresholdPipeline [1/2, 1/4, 1/4]
     (by norm_num [listSum, probSumTol]) rfl⟩

/-! ## Claim C4 — missing required fields abort prediction before any computation -/

/-- C4: whenever any of the six required fields is absent from the input, the
prediction call fails with an error naming exactly the missing fields, listed
in the canonical required-field order.  The theorem holds for every pipeline:
no model, scaler or explainer computation can influence (or precede) this
failure. -/
theorem predict_missing_columns (pl : Pipeline) (X : Frame)
    (h : missingColsOf X ≠ []) :
    predict pl X =
      .error (.missingColumns (requiredCols.filter (fun c => ¬ X.cols.contains c))) := by
  unfold predict
  have hv : validateInput pl.config X =
      .error (.missingColumns (requiredCols.filter (fun c => ¬ X.cols.contains c))) := by
    unfold validateInput
    rw [if_pos h]
    rfl
  rw [hv]
  rfl

/-- A frame with no columns at all (empty input). -/
def emptyFrame : Frame := { cols := [], rows := [] }

/-- C4 witness: an empty input frame fails, naming all six required fields in
canonical order. -/
theorem predict_missing_columns_witness :
    missingColsOf emptyFrame ≠ [] ∧
    predict demoPipeline emptyFrame =
      .error (.missingColumns
        ["Age", "SystolicBP", "DiastolicBP", "BS", "BodyTemp", "HeartRate"]) :=
  ⟨by decide,
   by
     rw [predict_missing_columns demoPipeline emptyFrame (by decide)]
     rfl⟩

/-! ## Claim C8 — out-of-range values warn but never block prediction -/

theorem mapExcept_ok_of_forall {α β ε : Type} (f : α → Except ε β) (l : List α)
    (h : ∀ a ∈ l, ∃ b, f a = .ok b) : ∃ res, mapExcept f l = .ok res := by
  induction l with
  | nil => exact ⟨[], rfl⟩
  | cons x xs ih =>
    rcases h x (List.mem_cons_self x xs) with ⟨y, hy⟩
    rcases ih (fun a ha => h a (List.mem_cons_of_mem x ha)) with ⟨ys, hys⟩
    exact ⟨y :: ys, by simp only [mapExcept, hy, hys]; rfl⟩

/-- C8: an input that has all six required fields with non-null values is
never rejected by validation, whatever its values: validation returns the
(possibly non-empty) list of clinical-range warnings, and — provided each
row's probability vector passes the alert validation — `predict` produces a
result for the input. -/
theorem out_of_range_does_not_block (pl : Pipeline) (X : Frame)
    (hcols : missingColsOf X = []) (hnull : nullColsOf X = [])
    (halerts : ∀ i < X.rows.length,
      probsValid pl (pl.probaRow X.cols (X.rows.getD i []))) :
    validateInput pl.config X = .ok (rangeWarnings pl.config X) ∧
    ∃ res, predict pl X = .ok res := by
  have hv : validateInput pl.config X = .ok (rangeWarnings pl.config X) := by
    unfold validateInput
    rw [if_neg (by simp [hcols]), if_neg (by simp [hnull])]
  refine ⟨hv, ?_⟩
  have hrows : ∀ i ∈ List.range X.rows.length, ∃ r, resultForRow pl X i = .ok r := by
    intro i hi
    have hi' : i < X.rows.length := List.mem_range.mp hi
    have hrow : (pl.probaMatrix X).getD i [] = pl.probaRow X.cols (X.rows.getD i []) := by
      unfold Pipeline.probaMatrix
      rw [List.getD_eq_getElem _ _ (by simpa using hi'), List.getElem_map,
        List.getD_eq_getElem _ _ hi']
    have hval : probsValid pl ((pl.probaMatrix X).getD i []) := by
      rw [hrow]; exact halerts i hi'
    rcases generateAlert_ok_of_valid pl _ hval.1 hval.2 with ⟨a, ha⟩
    simp only [resultForRow]
    rw [ha]
    exact ⟨_, rfl⟩
  rcases mapExcept_ok_of_forall (resultForRow pl X) (List.range X.rows.length) hrows with
    ⟨res, hres⟩
  exact ⟨res, by unfold predict; rw [hv]; exact hres⟩

/-- An input row with all six fields present and non-null but with `Age = 70`,
outside the configured clinical range `[13, 60]`. -/
def outOfRangeRow : Row :=
  [("Age", some 70), ("SystolicBP", some 120), ("DiastolicBP", some 80),
   ("BS", some 8), ("BodyTemp", some 98), ("HeartRate", some 70)]

def outOfRangeFrame : Frame := { cols := requiredCols, rows := [outOfRangeRow] }

/-- C8 witness: the out-of-range age produces an `Age` warning and the
prediction still succeeds. -/
theorem out_of_range_does_not_block_witness :
    missingColsOf outOfRangeFrame = [] ∧
    nullColsOf outOfRangeFrame = [] ∧
    (∀ i < outOfRangeFrame.rows.length,
      probsValid demoPipeline
        (demoPipeline.probaRow outOfRangeFrame.cols (outOfRangeFrame.rows.getD i []))) ∧
    "Age" ∈ rangeWarnings demoPipeline.config outOfRangeFrame ∧
    (validateInput demoPipeline.config outOfRangeFrame =
      .ok (rangeWarnings demoPipeline.config outOfRangeFrame) ∧
     ∃ res, predict demoPipeline outOfRangeFrame = .ok res) := by
  have hval : ∀ i < outOfRangeFrame.rows.length,
      probsValid demoPipeline
        (demoPipeline.probaRow outOfRangeFrame.cols (outOfRangeFrame.rows.getD i [])) := by
    intro i hi
    have h0 : i = 0 := Nat.lt_one_iff.mp (by simpa [outOfRangeFrame] using hi)
    subst h0
    constructor
    · norm_num [Pipeline.probaRow, demoPipeline, listSum, probSumTol, abs_le]
    · rfl
  refine ⟨by decide, by decide, hval, ?_, ?_⟩
  · norm_num [rangeWarnings, demoPipeline, defaultModelConfig, defaultClinicalRanges,
      outOfRangeFrame, outOfRangeRow, requiredCols, getColD, getCol]
  · exact out_of_range_does_not_block demoPipeline outOfRangeFrame (by decide) (by decide) hval

/-! ## Claim C5 — the `/shap/global` endpoint clamps oversized sample sizes -/

/-- C5 (amended): a request with `sample_size > 100` is clamped by the
`/shap/global` endpoint, not by the engine: the endpoint answers exactly like
a request for 100 samples — it neither raises nor computes over the oversized
request, the synthetic sample frame it works on has 100 rows, and a
successful result reports `sample_size = 100`. -/
theorem shap_global_clamps_oversized (e : SHAPExplainerM) (ss : Nat) (h : 100 < ss) :
    shapGlobalEndpoint e ss = getGlobalFeatureImportance e 100 ∧
    (sampleData e 100).length = 100 ∧
    ∀ r, getGlobalFeatureImportance e 100 = .ok r → r.sample_size = 100 := by
  refine ⟨by unfold shapGlobalEndpoint; rw [if_pos h], by simp [sampleData], ?_⟩
  intro r hr
  unfold getGlobalFeatureImportance at hr
  cases hfn : e.shapFn with
  | none => rw [hfn] at hr; cases hr
  | some f =>
    rw [hfn] at hr
    cases hc : getCachedShapValues e 100 with
    | none => rw [hc] at hr; cases hr
    | some m =>
      rw [hc] at hr
      injection hr with h2
      rw [← h2]

/-- A concrete explainer whose oracle attributes every row the same values. -/
def demoExplainer : SHAPExplainerM :=
  { shapFn := some (fun rows => some (rows.map (fun _ => [1, 2, 3, 4, 5, 6])))
    sampleRow := fun _ =>
      [("Age", 30), ("SystolicBP", 120), ("DiastolicBP", 80),
       ("BS", 8), ("BodyTemp", 98), ("HeartRate", 70)] }

/-- C5 counterexample: the engine function `get_global_feature_importance`
itself does not clamp — invoked directly with `sample_size = 150` it draws 150
synthetic rows and reports `sample_size = 150`. -/
theorem global_importance_not_clamped_by_engine :
    (sampleData demoExplainer 150).length = 150 ∧
    ∃ r, getGlobalFeatureImportance demoExplainer 150 = .ok r ∧ r.sample_size = 150 :=
  ⟨by simp [sampleData], ⟨_, rfl, rfl⟩⟩

/-- C5 witness: the concrete request `sample_size = 150`. -/
theorem shap_global_clamps_oversized_witness :
    100 < 150 ∧
    (shapGlobalEndpoint demoExplainer 150 = getGlobalFeatureImportance demoExplainer 100 ∧
     (sampleData demoExplainer 100).length = 100 ∧
     ∀ r, getGlobalFeatureImportance demoExplainer 100 = .ok r → r.sample_size = 100) :=
  ⟨by decide, shap_global_clamps_oversized demoExplainer 150 (by decide)⟩

/-! ## Claim C9 — calibration curve with no high-risk example -/

theorem pyIndex_getD (cn : List String) (a : String) :
    ∀ j, pyIndex a cn = some j → cn.getD j "" = a := by
  induction cn with
  | nil => intro j h; cases h
  | cons x xs ih =>
    intro j h
    by_cases hx : x = a
    · rw [pyIndex, if_pos hx] at h
      injection h with h
      rw [← h]
      simpa using hx
    · rw [pyIndex, if_neg hx] at h
      cases hp : pyIndex a xs with
      | none => rw [hp] at h; cases h
      | some j2 =>
        rw [hp] at h
        injection h with h
        rw [← h]
        simpa using ih j2 hp

theorem foldr_add_zero_of_all_zero (l : List Nat) (h : ∀ x ∈ l, x = 0) :
    l.foldr (· + ·) 0 = 0 := by
  induction l with
  | nil => rfl
  | cons x xs ih =>
    simp only [List.foldr_cons]
    rw [h x (List.mem_cons_self x xs), ih (fun y hy => h y (List.mem_cons_of_mem x hy))]

/-- C9: on an evaluation set whose true labels contain no example of the
`high risk` class, the calibration-curve computation returns the empty curve
`{prob_true: [], prob_pred: []}` — whatever sklearn's binning routine would
do, it is never consulted, and no exception escapes (the embedding is a total
function). -/
theorem calibration_empty_when_no_high
    (calFn : List Nat → List ℚ → Except String CalibrationCurve)
    (yTrue : List Nat) (yProba : List (List ℚ)) (classNames : List String)
    (h : ∀ t ∈ yTrue, classNames.getD t "" ≠ "high risk") :
    calculateCalibrationCurve calFn yTrue yProba classNames = emptyCurve := by
  unfold calculateCalibrationCurve
  cases hidx : pyIndex "high risk" classNames with
  | none => rfl
  | some j =>
    cases hcol : extractCol yProba j with
    | none => simp only [hcol]
    | some col =>
      have hj : classNames.getD j "" = "high risk" := pyIndex_getD classNames _ j hidx
      have hzero : (yTrue.map (fun t => if t = j then 1 else 0)).foldr (· + ·) 0 = 0 := by
        apply foldr_add_zero_of_all_zero
        intro x hx
        rcases List.mem_map.mp hx with ⟨t, ht, rfl⟩
        have hne : t ≠ j := fun he => h t ht (he ▸ hj)
        rw [if_neg hne]
      simp only [hcol, hzero]
      norm_num

/-- C9 witness: true labels `[1, 2]` against classes
`["high risk", "low risk", "mid risk"]` (so no high-risk example), with a
binning oracle that would return a non-empty curve if it were consulted. -/
theorem calibration_empty_when_no_high_witness :
    (∀ t ∈ [1, 2], demoClasses.getD t "" ≠ "high risk") ∧
    calculateCalibrationCurve (fun _ _ => .ok { prob_true := [1], prob_pred := [1] })
      [1, 2] [[1/2, 1/4, 1/4], [1/2, 1/4, 1/4]] demoClasses = emptyCurve :=
  ⟨by decide,
   calibration_empty_when_no_high (fun _ _ => .ok { prob_true := [1], prob_pred := [1] })
     [1, 2] [[1/2, 1/4, 1/4], [1/2, 1/4, 1/4]] demoClasses (by decide)⟩

/-! ## Claim C6 — explanations sorted by |SHAP|, with dense 1..n ranks -/

theorem assignRanksFrom_length (l : List ExplanationEntry) :
    ∀ n, (assignRanksFrom n l).length = l.length := by
  induction l with
  | nil => intro n; rfl
  | cons x xs ih => intro n; simp [assignRanksFrom, ih]

theorem assignRanksFrom_getD (l : List ExplanationEntry) :
    ∀ n i, i < l.length →
      (assignRanksFrom n l).getD i dummyEntry =
        { l.getD i dummyEntry with importance_rank := n + i } := by
  induction l with
  | nil => intro n i h; exact absurd h (Nat.not_lt_zero i)
  | cons x xs ih =>
    intro n i h
    cases i with
    | zero => simp [assignRanksFrom]
    | succ i =>
      simp only [assignRanksFrom, List.getD_cons_succ]
      rw [show n + (i + 1) = (n + 1) + i from by omega]
      exact ih (n + 1) i (Nat.lt_of_succ_lt_succ h)

/-- The two C6 properties, trivially true of the empty result. -/
theorem sorted_ranked_nil :
    (∀ i, i + 1 < ([] : List ExplanationEntry).length →
      (([] : List ExplanationEntry).getD (i + 1) dummyEntry).abs_shap_value ≤
        (([] : List ExplanationEntry).getD i dummyEntry).abs_shap_value) ∧
    (∀ i, i < ([] : List ExplanationEntry).length →
      (([] : List ExplanationEntry).getD i dummyEntry).importance_rank = i + 1) :=
  ⟨fun _ h => absurd h (by simp), fun _ h => absurd h (by simp)⟩

theorem assignRanks_sortDesc_spec (raw : List ExplanationEntry) :
    (∀ i, i + 1 < (assignRanks (sortDescBy (fun x => x.abs_shap_value) raw)).length →
      ((assignRanks (sortDescBy (fun x => x.abs_shap_value) raw)).getD (i + 1)
          dummyEntry).abs_shap_value ≤
        ((assignRanks (sortDescBy (fun x => x.abs_shap_value) raw)).getD i
          dummyEntry).abs_shap_value) ∧
    (∀ i, i < (assignRanks (sortDescBy (fun x => x.abs_shap_value) raw)).length →
      ((assignRanks (sortDescBy (fun x => x.abs_shap_value) raw)).getD i
          dummyEntry).importance_rank = i + 1) := by
  have hlen : (assignRanks (sortDescBy (fun x => x.abs_shap_value) raw)).length =
      (sortDescBy (fun x => x.abs_shap_value) raw).length :=
    assignRanksFrom_length _ 1
  constructor
  · intro i h
    have hi1 : i + 1 < (sortDescBy (fun x => x.abs_shap_value) raw).length := hlen ▸ h
    have hi : i < (sortDescBy (fun x => x.abs_shap_value) raw).length := Nat.lt_of_succ_lt hi1
    unfold assignRanks
    rw [assignRanksFrom_getD _ 1 (i + 1) hi1, assignRanksFrom_getD _ 1 i hi]
    show ((sortDescBy (fun x => x.abs_shap_value) raw).getD (i + 1)
        dummyEntry).abs_shap_value ≤
      ((sortDescBy (fun x => x.abs_shap_value) raw).getD i dummyEntry).abs_shap_value
    have hp := sortDescBy_pairwise (fun x : ExplanationEntry => x.abs_shap_value) raw
    have hgl := List.pairwise_iff_getElem.mp hp i (i + 1) hi hi1 (Nat.lt_succ_self i)
    rw [List.getD_eq_getElem _ _ hi1, List.getD_eq_getElem _ _ hi]
    exact hgl
  · intro i h
    have hi : i < (sortDescBy (fun x => x.abs_shap_value) raw).length := hlen ▸ h
    unfold assignRanks
    rw [assignRanksFrom_getD _ 1 i hi]
    show 1 + i = i + 1
    omega

/-- C6: every individual explanation is sorted by non-increasing absolute
SHAP contribution, and its `importance_rank` fields form exactly the dense
sequence `1, 2, ..., n` in list order. -/
theorem individual_explanation_sorted_ranked (e : SHAPExplainerM)
    (features : List (String × ℚ)) :
    (∀ i, i + 1 < (getIndividualExplanation e features).length →
      ((getIndividualExplanation e features).getD (i + 1) dummyEntry).abs_shap_value ≤
        ((getIndividualExplanation e features).getD i dummyEntry).abs_shap_value) ∧
    (∀ i, i < (getIndividualExplanation e features).length →
      ((getIndividualExplanation e features).getD i dummyEntry).importance_rank = i + 1) := by
  unfold getIndividualExplanation
  cases e.shapFn with
  | none => exact sorted_ranked_nil
  | some f =>
    dsimp only
    cases f [features] with
    | none => exact sorted_ranked_nil
    | some m =>
      dsimp only
      cases m.get? 0 with
      | none => exact sorted_ranked_nil
      | some sv =>
        dsimp only
        cases buildEntries features sv requiredCols.enum with
        | none => exact sorted_ranked_nil
        | some raw => exact assignRanks_sortDesc_spec raw

/-- A full six-feature query row. -/
def demoFeatureRow : List (String × ℚ) :=
  [("Age", 35), ("SystolicBP", 140), ("DiastolicBP", 90),
   ("BS", 9), ("BodyTemp", 99), ("HeartRate", 80)]

/-- An explainer whose oracle returns the integer attribution vector
`[3, -7, 5, 0, 2, -1]` for any single-row query. -/
def demoIndivExplainer : SHAPExplainerM :=
  { shapFn := some (fun _ => some [[3, -7, 5, 0, 2, -1]])
    sampleRow := fun _ => demoFeatureRow }

/-- C6 witness: at index 0 of a six-entry explanation. -/
theorem individual_explanation_sorted_ranked_witness :
    0 + 1 < (getIndividualExplanation demoIndivExplainer demoFeatureRow).length ∧
    ((getIndividualExplanation demoIndivExplainer demoFeatureRow).getD (0 + 1)
        dummyEntry).abs_shap_value ≤
      ((getIndividualExplanation demoIndivExplainer demoFeatureRow).getD 0
        dummyEntry).abs_shap_value ∧
    ((getIndividualExplanation demoIndivExplainer demoFeatureRow).getD 0
        dummyEntry).importance_rank = 0 + 1 :=
  ⟨by decide,
   (individual_explanation_sorted_ranked demoIndivExplainer demoFeatureRow).1 0 (by decide),
   (individual_explanation_sorted_ranked demoIndivExplainer demoFeatureRow).2 0 (by decide)⟩

/-! ## Claim C7 — the explanation summary -/

theorem buildEntries_impact (features : List (String × ℚ)) (sv : List ℚ) :
    ∀ (pairs : List (Nat × String)) (res : List ExplanationEntry),
      buildEntries features sv pairs = some res →
      ∀ x ∈ res, x.impact = (if 0 < x.shap_value then "positive" else "negative") := by
  intro pairs
  induction pairs with
  | nil =>
    intro res h x hx
    injection h with h
    rw [← h] at hx
    cases hx
  | cons p rest ih =>
    intro res h x hx
    obtain ⟨i, name⟩ := p
    simp only [buildEntries] at h
    cases hl : List.lookup name features with
    | none =>
      rw [hl] at h
      exact ih res h x hx
    | some v =>
      rw [hl] at h
      cases hs : sv.get? i with
      | none => rw [hs] at h; cases h
      | some sval =>
        rw [hs] at h
        cases hb : buildEntries features sv rest with
        | none => rw [hb] at h; cases h
        | some es =>
          rw [hb] at h
          injection h with h
          rw [← h] at hx
          rcases List.mem_cons.mp hx with rfl | hx2
          · rfl
          · exact ih es hb x hx2

theorem assignRanksFrom_mem (l : List ExplanationEntry) :
    ∀ (n : Nat) (x : ExplanationEntry), x ∈ assignRanksFrom n l →
      ∃ y ∈ l, x.impact = y.impact ∧ x.shap_value = y.shap_value := by
  induction l with
  | nil => intro n x hx; cases hx
  | cons z zs ih =>
    intro n x hx
    rcases List.mem_cons.mp hx with rfl | hx2
    · exact ⟨z, List.mem_cons_self z zs, rfl, rfl⟩
    · rcases ih (n + 1) x hx2 with ⟨y, hy, h1, h2⟩
      exact ⟨y, List.mem_cons_of_mem z hy, h1, h2⟩

/-- Every entry of an individual explanation is tagged `positive` exactly when
its SHAP value is strictly positive, and `negative` otherwise. -/
theorem getIndividualExplanation_impact (e : SHAPExplainerM)
    (features : List (String × ℚ)) :
    ∀ x ∈ getIndividualExplanation e features,
      x.impact = (if 0 < x.shap_value then "positive" else "negative") := by
  unfold getIndividualExplanation
  cases e.shapFn with
  | none => intro x hx; cases hx
  | some f =>
    dsimp only
    cases f [features] with
    | none => intro x hx; cases hx
    | some m =>
      dsimp only
      cases m.get? 0 with
      | none => intro x hx; cases hx
      | some sv =>
        dsimp only
        cases hb : buildEntries features sv requiredCols.enum with
        | none => intro x hx; cases hx
        | some raw =>
          intro x hx
          rcases assignRanksFrom_mem _ 1 x hx with ⟨y, hy, h1, h2⟩
          have hy2 : y ∈ raw :=
            (sortDescBy_perm (fun x => x.abs_shap_value) raw).mem_iff.mp hy
          rw [h1, h2]
          exact buildEntries_impact features sv requiredCols.enum raw hb y hy2

/-- C7: the explanation summary partitions the entries by the sign of their
SHAP contribution (strictly positive vs non-positive), sums each partition,
surfaces the top entry, reports the three leading entries, and grades the
explanation `high` iff at least 4 features were explained (`medium`
otherwise); an empty explanation yields an explicit error, not a summary. -/
theorem explanation_summary_spec (e : SHAPExplainerM) (features : List (String × ℚ)) :
    (getIndividualExplanation e features = [] →
      getExplanationSummary e features = .error "Could not generate explanation") ∧
    (getIndividualExplanation e features ≠ [] →
      ∃ s, getExplanationSummary e features = .ok s ∧
        s.positive_contributors =
          (getIndividualExplanation e features).filter
            (fun x => decide (0 < x.shap_value)) ∧
        s.negative_contributors =
          (getIndividualExplanation e features).filter
            (fun x => decide (x.shap_value ≤ 0)) ∧
        List.Perm (s.positive_contributors ++ s.negative_contributors)
          (getIndividualExplanation e features) ∧
        s.total_positive_impact =
          listSum (s.positive_contributors.map (fun x => x.shap_value)) ∧
        s.total_negative_impact =
          listSum (s.negative_contributors.map (fun x => x.shap_value)) ∧
        s.most_important_feature = (getIndividualExplanation e features).head? ∧
        s.top_contributing_features = (getIndividualExplanation e features).take 3 ∧
        (s.explanation_quality = "high" ↔
          4 ≤ (getIndividualExplanation e features).length) ∧
        (s.explanation_quality = "medium" ↔
          ¬ 4 ≤ (getIndividualExplanation e features).length)) := by
  have himp := getIndividualExplanation_impact e features
  constructor
  · intro h
    simp only [getExplanationSummary]
    rw [h]
    rfl
  · intro h
    have hne : (getIndividualExplanation e features).isEmpty = false := by
      simpa [List.isEmpty_iff] using h
    simp only [getExplanationSummary, hne, Bool.false_eq_true, if_false]
    have hposq : ∀ x ∈ getIndividualExplanation e features,
        (x.impact == "positive") = decide (0 < x.shap_value) := by
      intro x hx
      by_cases hs : 0 < x.shap_value
      · simp [himp x hx, hs]
      · simp [himp x hx, hs]
    have hnegq : ∀ x ∈ getIndividualExplanation e features,
        (x.impact == "negative") = decide (x.shap_value ≤ 0) := by
      intro x hx
      by_cases hs : 0 < x.shap_value
      · simp [himp x hx, hs, not_le.mpr hs]
      · simp [himp x hx, hs, not_lt.mp hs]
    have hnotq : ∀ x ∈ getIndividualExplanation e features,
        (x.impact == "negative") = !(x.impact == "positive") := by
      intro x hx
      by_cases hs : 0 < x.shap_value
      · simp [himp x hx, hs]
      · simp [himp x hx, hs]
    refine ⟨_, rfl, List.filter_congr hposq, List.filter_congr hnegq, ?_, rfl, rfl, ?_, rfl,
      ?_, ?_⟩
    · rw [List.filter_congr hnotq]
      exact List.filter_append_perm _ _
    · rcases hh : getIndividualExplanation e features with _ | ⟨y, ys⟩
      · exact absurd hh h
      · rfl
    · by_cases h4 : 4 ≤ (getIndividualExplanation e features).length
      · simp [h4]
      · simp [h4]
    · by_cases h4 : 4 ≤ (getIndividualExplanation e features).length
      · simp [h4]
      · simp [h4]

/-- An explainer without an underlying SHAP explainer object. -/
def emptyExplainer : SHAPExplainerM :=
  { shapFn := none, sampleRow := fun _ => [] }

/-- C7 witness: the explainer-less engine yields the error marker, and the
six-entry explanation of `demoIndivExplainer` yields a full summary. -/
theorem explanation_summary_spec_witness :
    (getIndividualExplanation emptyExplainer demoFeatureRow = [] ∧
     getExplanationSummary emptyExplainer demoFeatureRow =
       .error "Could not generate explanation") ∧
    (getIndividualExplanation demoIndivExplainer demoFeatureRow ≠ [] ∧
     ∃ s, getExplanationSummary demoIndivExplainer demoFeatureRow = .ok s ∧
       s.positive_contributors =
         (getIndividualExplanation demoIndivExplainer demoFeatureRow).filter
           (fun x => decide (0 < x.shap_value)) ∧
       s.negative_contributors =
         (getIndividualExplanation demoIndivExplainer demoFeatureRow).filter
           (fun x => decide (x.shap_value ≤ 0)) ∧
       List.Perm (s.positive_contributors ++ s.negative_contributors)
         (getIndividualExplanation demoIndivExplainer demoFeatureRow) ∧
       s.total_positive_impact =
         listSum (s.positive_contributors.map (fun x => x.shap_value)) ∧
       s.total_negative_impact =
         listSum (s.negative_contributors.map (fun x => x.shap_value)) ∧
       s.most_important_feature =
         (getIndividualExplanation demoIndivExplainer demoFeatureRow).head? ∧
       s.top_contributing_features =
         (getIndividualExplanation demoIndivExplainer demoFeatureRow).take 3 ∧
       (s.explanation_quality = "high" ↔
         4 ≤ (getIndividualExplanation demoIndivExplainer demoFeatureRow).length) ∧
       (s.explanation_quality = "medium" ↔
         ¬ 4 ≤ (getIndividualExplanation demoIndivExplainer demoFeatureRow).length)) :=
  ⟨⟨rfl, (explanation_summary_spec emptyExplainer demoFeatureRow).1 rfl⟩,
   ⟨by decide, (explanation_summary_spec demoIndivExplainer demoFeatureRow).2 (by decide)⟩⟩

/-! ## Claim C10 — the per-prediction explanation keeps only the top 3 features -/

def dummyPredResult : PredResult :=
  { predicted_risk_level := "", probability := [], alert := errorAlert,
    confidence_score := 0, explanation := [] }

theorem buildExplanation_length_le (names : List String) (v : List ℚ) :
    (buildExplanation names v).length ≤ 3 := by
  unfold buildExplanation
  split_ifs with hc
  · refine le_trans (List.length_filterMap_le _ _) ?_
    unfold top3Idx
    exact List.length_take_le 3 _
  · simp

theorem buildExplanation_mem (names : List String) (v : List ℚ) :
    ∀ x ∈ buildExplanation names v,
      ∃ j, j < names.length ∧ j ∈ top3Idx v ∧
        x = { feature := names.getD j "", shap_value := v.getD j 0 } := by
  intro x hx
  unfold buildExplanation at hx
  split_ifs at hx with hcond
  · rcases List.mem_filterMap.mp hx with ⟨j, hjmem, hj⟩
    by_cases hl : j < names.length
    · rw [if_pos hl] at hj
      injection hj with hj
      exact ⟨j, hl, hjmem, hj.symm⟩
    · rw [if_neg hl] at hj
      cases hj
  · cases hx

theorem sortDesc_take_drop_dominance {α : Type} (key : α → ℚ) (l : List α) (n : Nat)
    (a b : α) (ha : a ∈ (sortDescBy key l).take n) (hb : b ∈ (sortDescBy key l).drop n) :
    key b ≤ key a := by
  have hp := sortDescBy_pairwise key l
  rw [← List.take_append_drop n (sortDescBy key l)] at hp
  exact (List.pairwise_append.mp hp).2.2 a ha b hb

/-- Every produced entry dominates (in absolute SHAP value) every index not
selected by the top-3 cut. -/
theorem buildExplanation_dominates (names : List String) (v : List ℚ) :
    ∀ x ∈ buildExplanation names v, ∀ j, j < v.length → j ∉ top3Idx v →
      |v.getD j 0| ≤ |x.shap_value| := by
  intro x hx j hj hnotin
  rcases buildExplanation_mem names v x hx with ⟨j0, _, hj0top, rfl⟩
  show |v.getD j 0| ≤ |v.getD j0 0|
  have hjs : j ∈ sortDescBy (fun j => |v.getD j 0|) (List.range v.length) :=
    (sortDescBy_perm (fun j => |v.getD j 0|) (List.range v.length)).mem_iff.mpr
      (List.mem_range.mpr hj)
  have hjd : j ∈ (sortDescBy (fun j => |v.getD j 0|) (List.range v.length)).drop 3 := by
    rcases List.mem_append.mp
      (by rw [List.take_append_drop 3
        (sortDescBy (fun j => |v.getD j 0|) (List.range v.length))]; exact hjs) with h | h
    · exact absurd h hnotin
    · exact h
  exact sortDesc_take_drop_dominance (fun j => |v.getD j 0|) (List.range v.length) 3
    j0 j hj0top hjd

theorem mapExcept_ok_apply {α β ε : Type} (f : α → Except ε β) :
    ∀ (l : List α) (res : List β), mapExcept f l = .ok res →
      res.length = l.length ∧
      ∀ (i : Nat) (da : α) (db : β), i < l.length → f (l.getD i da) = .ok (res.getD i db) := by
  intro l
  induction l with
  | nil =>
    intro res h
    injection h with h
    rw [← h]
    exact ⟨rfl, fun i da db hi => absurd hi (Nat.not_lt_zero i)⟩
  | cons x xs ih =>
    intro res h
    cases hfx : f x with
    | error e =>
      rw [show mapExcept f (x :: xs) = Except.error e from by
        simp only [mapExcept, hfx]; rfl] at h
      cases h
    | ok y =>
      cases hxs : mapExcept f xs with
      | error e =>
        rw [show mapExcept f (x :: xs) = Except.error e from by
          simp only [mapExcept, hfx, hxs]; rfl] at h
        cases h
      | ok ys =>
        rw [show mapExcept f (x :: xs) = Except.ok (y :: ys) from by
          simp only [mapExcept, hfx, hxs]; rfl] at h
        injection h with h
        rw [← h]
        rcases ih ys hxs with ⟨hlen, hget⟩
        refine ⟨by simp [hlen], ?_⟩
        intro i da db hi
        cases i with
        | zero => simpa using hfx
        | succ i => simpa [List.getD_cons_succ] using hget i da db (Nat.lt_of_succ_lt_succ hi)

theorem resultForRow_explanation (pl : Pipeline) (X : Frame) (i : Nat) (r : PredResult)
    (h : resultForRow pl X i = .ok r) :
    r.explanation =
      match rowShap pl (engineerFrame X) (pl.probaMatrix X) i with
      | none => []
      | some sv => buildExplanation (engineeredCols X.cols) sv := by
  simp only [resultForRow] at h
  cases ha : generateAlert pl ((pl.probaMatrix X).getD i []) with
  | error e => rw [ha] at h; cases h
  | ok a =>
    rw [ha] at h
    injection h with h
    rw [← h]

/-- C10: every successful prediction's `explanation` list has at most 3
entries, each entry carries (only) an engineered-feature name and its signed
SHAP value, and whenever the SHAP extraction succeeded the list is exactly the
top-3 construction over the full engineered attribution vector — so each kept
entry's absolute SHAP value dominates every index left out of the cut. -/
theorem predict_explanation_top3 (pl : Pipeline) (X : Frame) (res : List PredResult)
    (h : predict pl X = .ok res) (i : Nat) (hi : i < res.length) :
    ((res.getD i dummyPredResult).explanation).length ≤ 3 ∧
    (∀ x ∈ (res.getD i dummyPredResult).explanation,
      ∃ j, j < (engineeredCols X.cols).length ∧
        x = { feature := (engineeredCols X.cols).getD j "",
              shap_value := x.shap_value }) ∧
    (∀ sv, rowShap pl (engineerFrame X) (pl.probaMatrix X) i = some sv →
      (res.getD i dummyPredResult).explanation =
        buildExplanation (engineeredCols X.cols) sv ∧
      ∀ x ∈ buildExplanation (engineeredCols X.cols) sv,
        ∀ j, j < sv.length → j ∉ top3Idx sv → |sv.getD j 0| ≤ |x.shap_value|) := by
  have hm : mapExcept (resultForRow pl X) (List.range X.rows.length) = .ok res := by
    cases hv : validateInput pl.config X with
    | error e =>
      exact absurd h (by unfold predict; rw [hv]; exact fun hc => Except.noConfusion hc)
    | ok w =>
      have := h
      unfold predict at this
      rw [hv] at this
      exact this
  rcases mapExcept_ok_apply (resultForRow pl X) (List.range X.rows.length) res hm with
    ⟨hlen, happly⟩
  have hi' : i < X.rows.length := by
    rw [hlen, List.length_range] at hi
    exact hi
  have hri : resultForRow pl X i = .ok (res.getD i dummyPredResult) := by
    have := happly i 0 dummyPredResult (by simpa using hi')
    rwa [List.getD_eq_getElem _ _ (by simpa using hi'), List.getElem_range] at this
  have hexp := resultForRow_explanation pl X i _ hri
  constructor
  · rw [hexp]
    cases rowShap pl (engineerFrame X) (pl.probaMatrix X) i with
    | none => simp
    | some sv => exact buildExplanation_length_le _ sv
  constructor
  · rw [hexp]
    cases rowShap pl (engineerFrame X) (pl.probaMatrix X) i with
    | none => intro x hx; cases hx
    | some sv =>
      intro x hx
      rcases buildExplanation_mem _ sv x hx with ⟨j, hjl, _, rfl⟩
      exact ⟨j, hjl, rfl⟩
  · intro sv hsv
    rw [hexp, hsv]
    exact ⟨rfl, buildExplanation_dominates _ sv⟩

/-- A 20-entry attribution vector over the full engineered feature set, with
strictly decreasing absolute values. -/
def svDemo : List ℚ :=
  [20, -19, 18, -17, 16, -15, 14, -13, 12, -11, 10, -9, 8, -7, 6, -5, 4, -3, 2, -1]

/-- A pipeline whose classifier is fully confident in the high-risk class and
whose SHAP extraction yields `svDemo` for every row. -/
def shapPipeline : Pipeline :=
  { classes := demoClasses
    config := defaultModelConfig
    scaler := fun v => v
    predictCls := fun _ => 0
    predictProba := fun _ => [1, 0, 0]
    shapExtract := some (fun _ _ _ => some svDemo) }

def demoAlert : AlertInfo :=
  { level := "HIGH_ALERT", message := "Immediate clinical evaluation recommended.",
    urgency := "CRITICAL", risk_score := 1, risk_category := "high risk" }

def demoResult : PredResult :=
  { predicted_risk_level := "high risk"
    probability := [("high risk", 1), ("low risk", 0), ("mid risk", 0)]
    alert := demoAlert
    confidence_score := 1
    explanation :=
      [{ feature := "Age", shap_value := 20 },
       { feature := "SystolicBP", shap_value := -19 },
       { feature := "DiastolicBP", shap_value := 18 }] }

theorem shapPipeline_predict_eval : predict shapPipeline demoFrame = .ok [demoResult] := by
  have hv : validateInput shapPipeline.config demoFrame = .ok [] := rfl
  have hinner : generateAlertInner shapPipeline [1, 0, 0] = .ok demoAlert := by
    norm_num [generateAlertInner, argmaxIdx, argmaxAux, shapPipeline, demoClasses,
      Pipeline.highRiskIdx, demoAlert, defaultModelConfig, List.indexOf_cons_self]
  have halert : generateAlert shapPipeline [1, 0, 0] = .ok demoAlert := by
    unfold generateAlert
    rw [if_pos (by norm_num [listSum, probSumTol]), if_pos (by decide), hinner]
  have hpm : (shapPipeline.probaMatrix demoFrame).getD 0 [] = [1, 0, 0] := rfl
  have hrfr : resultForRow shapPipeline demoFrame 0 = .ok demoResult := by
    simp only [resultForRow, hpm, halert]
    rfl
  unfold predict
  rw [hv]
  show mapExcept (resultForRow shapPipeline demoFrame)
    (List.range demoFrame.rows.length) = .ok [demoResult]
  rw [show List.range demoFrame.rows.length = [0] from rfl]
  simp only [mapExcept, hrfr]
  rfl

/-- C10 witness: the single prediction of `shapPipeline` keeps exactly the 3
dominating features of the 20-feature attribution vector. -/
theorem predict_explanation_top3_witness :
    predict shapPipeline demoFrame = .ok [demoResult] ∧
    0 < [demoResult].length ∧
    (([demoResult].getD 0 dummyPredResult).explanation).length ≤ 3 ∧
    (∀ x ∈ ([demoResult].getD 0 dummyPredResult).explanation,
      ∃ j, j < (engineeredCols demoFrame.cols).length ∧
        x = { feature := (engineeredCols demoFrame.cols).getD j "",
              shap_value := x.shap_value }) ∧
    (∀ sv, rowShap shapPipeline (engineerFrame demoFrame)
        (shapPipeline.probaMatrix demoFrame) 0 = some sv →
      ([demoResult].getD 0 dummyPredResult).explanation =
        buildExplanation (engineeredCols demoFrame.cols) sv ∧
      ∀ x ∈ buildExplanation (engineeredCols demoFrame.cols) sv,
        ∀ j, j < sv.length → j ∉ top3Idx sv → |sv.getD j 0| ≤ |x.shap_value|) := by
  have h := predict_explanation_top3 shapPipeline demoFrame [demoResult]
    shapPipeline_predict_eval 0 (by decide)
  exact ⟨shapPipeline_predict_eval, by decide, h.1, h.2.1, h.2.2⟩
